import Mathlib

/-
Verification development for the EcoBolt agricultural IoT dashboard front-end.
Each definition is a shallow embedding of a function of the repository;
external effects (Supabase queries, fetch calls, timers, Math.random) are
modelled as explicit outcome parameters.  JavaScript truthiness on strings
and numbers is modelled explicitly (empty string, 0, null and undefined are
falsy).
-/

namespace EcoBolt

/-- JS truthiness of a possibly-null/undefined string value:
`none` models null/undefined, the empty string is falsy. -/
def jsTruthyStr : Option String → Bool
  | none => false
  | some s => s ≠ ""

/-- JS `a || d` for a possibly-null/undefined string `a` and a string default `d`. -/
def jsOrStr (v : Option String) (d : String) : String :=
  match v with
  | none => d
  | some s => if s = "" then d else s

/-- JS `x || 0` for a possibly-null/undefined numeric value
(`none` models null/undefined/missing). -/
def jsNumOr0 (v : Option ℚ) : ℚ :=
  match v with
  | none => 0
  | some q => if q = 0 then 0 else q

/-- `SensorData` from src/src/types/index.ts: a timestamp and ten numeric readings. -/
structure SensorData where
  timestamp : String
  atmoTemp : ℚ
  humidity : ℚ
  light : ℚ
  ec : ℚ
  soilTemp : ℚ
  moisture : ℚ
  n : ℚ
  p : ℚ
  k : ℚ
  ph : ℚ
deriving Repr, DecidableEq

namespace Supa

/-- a raw row of the `sensor_data` table as the client receives it: any numeric
column may be missing or null (`none`). -/
structure SensorRow where
  timestamp : String
  atmo_temp : Option ℚ
  humidity : Option ℚ
  light : Option ℚ
  ec : Option ℚ
  soil_temp : Option ℚ
  moisture : Option ℚ
  nitrogen : Option ℚ
  phosphorus : Option ℚ
  potassium : Option ℚ
  ph : Option ℚ
deriving Repr, DecidableEq

/-- `SupabaseAPI.transformSensorData` (supabaseApi.ts lines 413-427):
each backend field is `field || 0`, the timestamp is copied through. -/
def transformSensorData (data : SensorRow) : SensorData :=
  { timestamp := data.timestamp
    atmoTemp := jsNumOr0 data.atmo_temp
    humidity := jsNumOr0 data.humidity
    light := jsNumOr0 data.light
    ec := jsNumOr0 data.ec
    soilTemp := jsNumOr0 data.soil_temp
    moisture := jsNumOr0 data.moisture
    n := jsNumOr0 data.nitrogen
    p := jsNumOr0 data.phosphorus
    k := jsNumOr0 data.potassium
    ph := jsNumOr0 data.ph }

/-- outcome of one awaited Supabase query: the promise either rejects
(`thrown`, covering network failures and timeout races) or resolves to a
result object carrying an error flag and a possibly-null list of rows. -/
inductive QueryOutcome (α : Type) where
  | thrown
  | res (error : Bool) (data : Option (List α))
deriving Repr, DecidableEq

/-- `SupabaseAPI.getLatestSensorData` (supabaseApi.ts lines 325-362):
returns null unless configured, the query resolves without error and
at least one row is present, in which case the first row is transformed. -/
def getLatestSensorData (configured : Bool) (q : QueryOutcome SensorRow) :
    Option SensorData :=
  if !configured then none
  else
    match q with
    | .thrown => none
    | .res error data =>
      if error then none
      else
        match data with
        | none => none
        | some [] => none
        | some (r :: _) => some (transformSensorData r)

/-- a row of the `user_profiles` table; every column may be null. -/
structure ProfileRow where
  full_name : Option String
  phone : Option String
  farm_name : Option String
  location : Option String
deriving Repr, DecidableEq

/-- the `User` record assembled by `SupabaseAPI.getCurrentUser`. -/
structure UserRec where
  id : String
  email : String
  name : String
  phone : String
  farmName : String
  location : String
deriving Repr, DecidableEq

/-- the auth user carried by a Supabase session: id, email and the
`user_metadata.full_name` field (possibly absent). -/
structure AuthUser where
  id : String
  email : String
  metaFullName : Option String
deriving Repr, DecidableEq

/-- outcome of the raced `supabase.auth.getSession()` call inside
`getCurrentUser`: rejection (timeout), an error result, a session without a
user, or a session user. -/
inductive SessionOutcome where
  | thrown
  | err
  | noUser
  | found (u : AuthUser)
deriving Repr, DecidableEq

/-- the external world one `getCurrentUser` call observes. -/
structure CurrentUserEnv where
  configured : Bool
  profileQuery : QueryOutcome ProfileRow
  connectionOk : Bool
  session : SessionOutcome
  sessionProfileQuery : QueryOutcome ProfileRow
deriving Repr, DecidableEq

/-- `const profile = data && data.length > 0 ? data[0] : null` applied to a
query outcome (a rejected query reaches the catch block, where no profile
row is available). -/
def extractProfile (q : QueryOutcome ProfileRow) : Option ProfileRow :=
  match q with
  | .thrown => none
  | .res _ data =>
    match data with
    | some (r :: _) => some r
    | _ => none

/-- `SupabaseAPI.getCurrentUser` (supabaseApi.ts lines 91-248).
Arguments `userId`, `userEmail`, `meta` model the optional parameters
(`userMetadata?.full_name` is flattened to `meta`). -/
def getCurrentUser (userId userEmail meta : Option String)
    (env : CurrentUserEnv) : Option UserRec :=
  if !env.configured then none
  else if jsTruthyStr userId && jsTruthyStr userEmail then
    match env.profileQuery with
    | .thrown =>
      some { id := userId.getD "", email := userEmail.getD "",
             name := jsOrStr meta "User", phone := "", farmName := "",
             location := "" }
    | .res _e data =>
      let profile : Option ProfileRow :=
        match data with
        | some (r :: _) => some r
        | _ => none
      some { id := userId.getD "", email := userEmail.getD "",
             name := jsOrStr (profile.bind ProfileRow.full_name) (jsOrStr meta "User"),
             phone := jsOrStr (profile.bind ProfileRow.phone) "",
             farmName := jsOrStr (profile.bind ProfileRow.farm_name) "",
             location := jsOrStr (profile.bind ProfileRow.location) "" }
  else if !env.connectionOk then none
  else
    match env.session with
    | .thrown => none
    | .err => none
    | .noUser => none
    | .found u =>
      match env.sessionProfileQuery with
      | .thrown =>
        some { id := u.id, email := u.email,
               name := jsOrStr u.metaFullName "User", phone := "",
               farmName := "", location := "" }
      | .res _e data =>
        let profile : Option ProfileRow :=
          match data with
          | some (r :: _) => some r
          | _ => none
        some { id := u.id, email := u.email,
               name := jsOrStr (profile.bind ProfileRow.full_name) (jsOrStr u.metaFullName "User"),
               phone := jsOrStr (profile.bind ProfileRow.phone) "",
               farmName := jsOrStr (profile.bind ProfileRow.farm_name) "",
               location := jsOrStr (profile.bind ProfileRow.location) "" }

/-- `SupabaseAPI.getSensorDataHistory` (supabaseApi.ts lines 364-411),
with the time-range filtering left to the backend query: returns the empty
list unless configured and the query resolves without error, in which case
every returned row is transformed. -/
def getSensorDataHistory (configured : Bool) (q : QueryOutcome SensorRow) :
    List SensorData :=
  if !configured then []
  else
    match q with
    | .thrown => []
    | .res error data =>
      if error then []
      else (data.getD []).map transformSensorData

/-- Modelled from the claim wording: the merged user record, with id and
email from the auth identity, name from the profile row falling back to the
metadata full name and then to "User", and the remaining fields from the
profile row falling back to the empty string. -/
def mergeUserSpec (uid uem : String) (profile : Option ProfileRow)
    (meta : Option String) : UserRec :=
  { id := uid, email := uem,
    name := jsOrStr (profile.bind ProfileRow.full_name) (jsOrStr meta "User"),
    phone := jsOrStr (profile.bind ProfileRow.phone) "",
    farmName := jsOrStr (profile.bind ProfileRow.farm_name) "",
    location := jsOrStr (profile.bind ProfileRow.location) "" }

end Supa

namespace WX

/-- a cached IAM token (watsonxApi.ts `WatsonXToken`); `expiration` is a Unix
time in seconds. -/
structure WatsonXToken where
  access_token : String
  refresh_token : String
  token_type : String
  expires_in : Int
  expiration : Int
  scope : String
deriving Repr, DecidableEq

/-- the 300-second buffer subtracted before comparing against the clock
(watsonxApi.ts `tokenExpiryBuffer`). -/
def tokenExpiryBuffer : Int := 300

/-- `WatsonXAPI.isTokenValid` (watsonxApi.ts lines 84-91): `now` is
`Math.floor(Date.now() / 1000)`. -/
def isTokenValid (cachedToken : Option WatsonXToken) (now : Int) : Bool :=
  match cachedToken with
  | none => false
  | some t => now < t.expiration - tokenExpiryBuffer

/-- the token-exchange fetch inside `generateToken`, executed when the cache
cannot be used: on success the token is cached and its access token
returned, on failure the error propagates and the cache is unchanged.
The Bool records that an exchange request was performed. -/
def exchangeStep (cachedToken : Option WatsonXToken)
    (exchange : Except String WatsonXToken) :
    Except String String × Option WatsonXToken × Bool :=
  match exchange with
  | .ok t => (.ok t.access_token, some t, true)
  | .error e => (.error e, cachedToken, true)

/-- `WatsonXAPI.generateToken` (watsonxApi.ts lines 40-81), as a function of
the api key, the cached-token state, the clock and the outcome of the IAM
exchange; result = (returned value or thrown error, new cache, whether an
exchange was performed). -/
def generateToken (apiKey : String) (cachedToken : Option WatsonXToken)
    (now : Int) (exchange : Except String WatsonXToken) :
    Except String String × Option WatsonXToken × Bool :=
  if apiKey = "" then (.error "WatsonX API key not configured", cachedToken, false)
  else
    match cachedToken with
    | some t =>
      if isTokenValid (some t) now then (.ok t.access_token, some t, false)
      else exchangeStep (some t) exchange
    | none => exchangeStep none exchange

/-- a JavaScript JSON value as far as the recommendation filter inspects it. -/
inductive JVal where
  | jstr (s : String)
  | jnum (q : ℚ)
  | jbool (b : Bool)
  | jnull
deriving Repr, DecidableEq

/-- JS truthiness of an object field holding a JSON value
(`none` models an absent field). -/
def jvTruthy : Option JVal → Bool
  | none => false
  | some (.jstr s) => s ≠ ""
  | some (.jnum q) => q ≠ 0
  | some (.jbool b) => b
  | some .jnull => false

/-- `typeof x === "number"` on an object field. -/
def jvIsNumber : Option JVal → Bool
  | some (.jnum _) => true
  | _ => false

/-- `typeof x === "boolean"` on an object field. -/
def jvIsBoolean : Option JVal → Bool
  | some (.jbool _) => true
  | _ => false

/-- one parsed object of the model response array, with the seven fields the
filter inspects, each possibly absent. -/
structure RecObj where
  type : Option JVal
  title : Option JVal
  description : Option JVal
  confidence : Option JVal
  priority : Option JVal
  actionable : Option JVal
  reasoning : Option JVal
deriving Repr, DecidableEq

/-- the validation filter of `getRecommendations` (watsonxApi.ts lines
206-210): `rec.type && rec.title && rec.description && typeof rec.confidence
=== number && rec.priority && typeof rec.actionable === boolean &&
rec.reasoning`. -/
def isValidRec (r : RecObj) : Bool :=
  jvTruthy r.type && jvTruthy r.title && jvTruthy r.description &&
  jvIsNumber r.confidence && jvTruthy r.priority &&
  jvIsBoolean r.actionable && jvTruthy r.reasoning

/-- field presence as the claim words it: the object has all seven required
fields, with a numeric confidence and a boolean actionable flag. -/
def hasAllSevenFields (r : RecObj) : Bool :=
  r.type.isSome && r.title.isSome && r.description.isSome &&
  jvIsNumber r.confidence && r.priority.isSome &&
  jvIsBoolean r.actionable && r.reasoning.isSome

/-- a recommendation as built by `getFallbackRecommendations`. -/
structure Recommendation where
  type : String
  title : String
  description : String
  confidence : ℚ
  priority : String
  actionable : Bool
  reasoning : String
deriving Repr, DecidableEq

/-- a fallback recommendation viewed as a parsed JSON object (the code uses
one TypeScript type for both). -/
def recToObj (r : Recommendation) : RecObj :=
  { type := some (.jstr r.type), title := some (.jstr r.title),
    description := some (.jstr r.description),
    confidence := some (.jnum r.confidence),
    priority := some (.jstr r.priority),
    actionable := some (.jbool r.actionable),
    reasoning := some (.jstr r.reasoning) }

/-- `WatsonXAPI.getFallbackRecommendations` (watsonxApi.ts lines 224-269):
three conditional pushes, in source order. -/
def getFallbackRecommendations (sensorData : SensorData) : List Recommendation :=
  (if sensorData.moisture < 40 then
    [{ type := "practice", title := "Increase Irrigation",
       description := "Soil moisture is below optimal levels. Consider increasing irrigation frequency or duration.",
       confidence := 85, priority := "high", actionable := true,
       reasoning := "Current soil moisture at " ++ toString sensorData.moisture ++ "% is below the optimal range of 40-60%." }]
  else []) ++
  (if sensorData.ph < 6 ∨ sensorData.ph > 7.5 then
    [{ type := "practice", title := "Soil pH Adjustment",
       description := if sensorData.ph < 6 then "Apply lime to increase soil pH" else "Apply sulfur to decrease soil pH",
       confidence := 80, priority := "medium", actionable := true,
       reasoning := "Current pH of " ++ toString sensorData.ph ++ " is outside the optimal range of 6.0-7.5." }]
  else []) ++
  (if sensorData.n < 30 then
    [{ type := "fertilizer", title := "Nitrogen Fertilizer Application",
       description := "Apply nitrogen-rich fertilizer to boost plant growth and leaf development.",
       confidence := 75, priority := "medium", actionable := true,
       reasoning := "Nitrogen levels at " ++ toString sensorData.n ++ "ppm are below optimal range." }]
  else [])

/-- drop characters until the first opening bracket (the leftmost possible
start of a regex match of the bracket-block pattern). -/
def dropUntilOpen : List Char → Option (List Char)
  | [] => none
  | c :: cs => if c = '[' then some (c :: cs) else dropUntilOpen cs

/-- index of the last closing bracket in the list, if any (the greedy
quantifier backtracks to the rightmost closing bracket). -/
def lastCloseIdx : List Char → Option Nat
  | [] => none
  | c :: cs =>
    match lastCloseIdx cs with
    | some j => some (j + 1)
    | none => if c = ']' then some 0 else none

/-- the leftmost-longest match of the bracket-block regex of
`getRecommendations` on the response text: from the first opening bracket to
the last closing bracket after it. -/
def matchBlock (cs : List Char) : Option (List Char) :=
  match dropUntilOpen cs with
  | none => none
  | some tail =>
    match lastCloseIdx tail with
    | none => none
    | some j => if j = 0 then none else some (tail.take (j + 1))

/-- `const jsonString = jsonMatch ? jsonMatch[0] : aiResponse` (watsonxApi.ts
lines 194-195): the matched bracket block, or the whole response when the
regex does not match. -/
def extractJsonBlock (s : String) : String :=
  match matchBlock s.data with
  | some m => String.mk m
  | none => s

/-- outcome of the chat-completion fetch of `getRecommendations`: a thrown
network error / non-ok HTTP status, a response without message content, or
the content text. -/
inductive ChatOutcome where
  | netError
  | noContent
  | content (s : String)
deriving Repr, DecidableEq

/-- `WatsonXAPI.getRecommendations` (watsonxApi.ts lines 130-221), as a
function of the configuration, the `generateToken` outcome, the chat fetch
outcome and JSON.parse (modelled as an oracle applied to the extracted
text, `none` meaning a parse exception). -/
def getRecommendations (apiKey projectId : String)
    (tokenStep : Except String String) (chat : ChatOutcome)
    (jsonParse : String → Option (List RecObj)) (sensorData : SensorData) :
    List RecObj :=
  if apiKey = "" || projectId = "" then []
  else
    match tokenStep with
    | .error _ => (getFallbackRecommendations sensorData).map recToObj
    | .ok _ =>
      match chat with
      | .netError => (getFallbackRecommendations sensorData).map recToObj
      | .noContent => (getFallbackRecommendations sensorData).map recToObj
      | .content s =>
        match jsonParse (extractJsonBlock s) with
        | none => (getFallbackRecommendations sensorData).map recToObj
        | some recs => recs.filter isValidRec

end WX

namespace Weather

/-- `WeatherData` from src/src/types/index.ts. -/
structure WeatherData where
  temperature : ℚ
  humidity : ℚ
  pressure : ℚ
  windSpeed : ℚ
  windDirection : ℚ
  description : String
  icon : String
  location : String
  visibility : ℚ
  uvIndex : ℚ
  feelsLike : ℚ
deriving Repr, DecidableEq

/-- the description table of `generateMockWeatherData`. -/
def descriptions : List String :=
  ["Clear sky", "Few clouds", "Scattered clouds", "Broken clouds",
   "Shower rain", "Rain", "Thunderstorm", "Snow", "Mist"]

/-- the icon table of `generateMockWeatherData`. -/
def icons : List String :=
  ["01d", "02d", "03d", "04d", "09d", "10d", "11d", "13d", "50d"]

/-- one set of `Math.random()` draws consumed by `generateMockWeatherData`;
`indexDraw` is `Math.floor(Math.random() * descriptions.length)`, which lies
in `Fin 9`. -/
structure WeatherRng where
  indexDraw : Fin 9
  tempDraw : ℚ
  humDraw : ℚ
  presDraw : ℚ
  windDraw : ℚ
  dirDraw : ℚ
  visDraw : ℚ
  uvDraw : ℚ
  feelDraw : ℚ
deriving Repr, DecidableEq

/-- `Math.round(x * 10) / 10`. -/
def roundTenths (x : ℚ) : ℚ := (round (x * 10) : ℤ) / 10

/-- `WeatherAPI.generateMockWeatherData` (part_000 lines 9-34). -/
def generateMockWeatherData (r : WeatherRng) : WeatherData :=
  { temperature := roundTenths (15 + r.tempDraw * 20)
    humidity := roundTenths (40 + r.humDraw * 40)
    pressure := roundTenths (1000 + r.presDraw * 50)
    windSpeed := roundTenths (0 + r.windDraw * 15)
    windDirection := (round (r.dirDraw * 360) : ℤ)
    description := descriptions.getD r.indexDraw ""
    icon := icons.getD r.indexDraw ""
    location := "Farm Location"
    visibility := roundTenths (5 + r.visDraw * 10)
    uvIndex := roundTenths (1 + r.uvDraw * 10)
    feelsLike := roundTenths (15 + r.feelDraw * 20) }

/-- `WeatherAPI.getCurrentWeather` (part_000 lines 36-80): the try block
returns mock data (the real API call is commented out); the catch block also
returns mock data; `tryRng` and `catchRng` are the draws each path would
consume, `failed` tells whether the try body threw. -/
def getCurrentWeather (tryRng catchRng : WeatherRng) (failed : Bool) :
    WeatherData :=
  if failed then generateMockWeatherData catchRng
  else generateMockWeatherData tryRng

end Weather

namespace MockApi

/-- `User` from src/src/types/index.ts (the mock API user). -/
structure EcoUser where
  id : String
  name : String
  email : String
  phone : String
deriving Repr, DecidableEq

/-- `UserSettings` from src/src/types/index.ts. -/
structure UserSettings where
  name : String
  email : String
  phone : String
deriving Repr, DecidableEq

/-- `AlertRequest` from src/src/types/index.ts. -/
structure AlertRequest where
  type : String
  message : String
deriving Repr, DecidableEq

/-- the mutable fields of the `EcoBoltAPI` singleton (api.ts lines 4-7). -/
structure ApiState where
  isAuthenticated : Bool
  currentUser : Option EcoUser
deriving Repr, DecidableEq

/-- the value resolved by `EcoBoltAPI.login`. -/
structure LoginResult where
  success : Bool
  user : Option EcoUser
  token : Option String
deriving Repr, DecidableEq

/-- `EcoBoltAPI.login` (api.ts lines 59-81): succeeds iff both credential
strings are truthy. -/
def login (st : ApiState) (email password : String) :
    ApiState × LoginResult :=
  if email ≠ "" && password ≠ "" then
    let u : EcoUser :=
      { id := "1", name := "John Farmer", email := email,
        phone := "+1-555-0123" }
    ({ isAuthenticated := true, currentUser := some u },
     { success := true, user := some u, token := some "mock-jwt-token" })
  else
    (st, { success := false, user := none, token := none })

/-- `EcoBoltAPI.getLatestSensorData` (api.ts lines 83-91); `mock` is the
freshly generated random sensor snapshot. -/
def getLatestSensorData (st : ApiState) (mock : SensorData) :
    Except String SensorData × ApiState :=
  if !st.isAuthenticated then (.error "Not authenticated", st)
  else (.ok mock, st)

/-- `EcoBoltAPI.getSensorDataHistory` (api.ts lines 93-101); `mockHistory`
is the generated historical series. -/
def getSensorDataHistory (st : ApiState) (mockHistory : List SensorData) :
    Except String (List SensorData) × ApiState :=
  if !st.isAuthenticated then (.error "Not authenticated", st)
  else (.ok mockHistory, st)

/-- `EcoBoltAPI.controlAppliance` (api.ts lines 103-113). -/
def controlAppliance (st : ApiState) (_device _status : String) :
    Except String Bool × ApiState :=
  if !st.isAuthenticated then (.error "Not authenticated", st)
  else (.ok true, st)

/-- `EcoBoltAPI.sendAlert` (api.ts lines 115-125). -/
def sendAlert (st : ApiState) (_req : AlertRequest) :
    Except String Bool × ApiState :=
  if !st.isAuthenticated then (.error "Not authenticated", st)
  else (.ok true, st)

/-- `EcoBoltAPI.updateSettings` (api.ts lines 127-141): spreads the settings
over the current user (a null current user spreads to empty fields). -/
def updateSettings (st : ApiState) (s : UserSettings) :
    Except String EcoUser × ApiState :=
  if !st.isAuthenticated then (.error "Not authenticated", st)
  else
    let base := st.currentUser.getD { id := "", name := "", email := "", phone := "" }
    let u : EcoUser :=
      { base with name := s.name, email := s.email, phone := s.phone }
    (.ok u, { st with currentUser := some u })

/-- `EcoBoltAPI.getAIRecommendations` (api.ts lines 144-158): resolves to a
success flag. -/
def getAIRecommendations (st : ApiState) (_sensorData : SensorData) :
    Except String Bool × ApiState :=
  if !st.isAuthenticated then (.error "Not authenticated", st)
  else (.ok true, st)

/-- `EcoBoltAPI.logout` (api.ts lines 164-167). -/
def logout (_st : ApiState) : ApiState :=
  { isAuthenticated := false, currentUser := none }

end MockApi

namespace DM

/-- a device row as the DeviceManagement component holds it (the fields the
add flow touches). -/
structure Device where
  device_id : String
  device_name : String
  location : Option String
deriving Repr, DecidableEq

/-- the component state the add flow reads and writes, plus the backend
`devices` table it is synchronised with through `fetchDevices`. -/
structure DMWorld where
  server : List Device
  devices : List Device
  error : String
  success : String
deriving Repr, DecidableEq

/-- `DeviceManagement.handleSubmit`, add path (DeviceManagement.tsx lines
93-133): rejects when the client list already holds a device; otherwise
calls `addDevice` (whose failure message is `addFailure`), refreshes the
list from the server and reports success. The Bool of the result records
whether `addDevice` was called. -/
def handleSubmitAdd (w : DMWorld) (d : Device) (addFailure : Option String) :
    DMWorld × Bool :=
  if 1 ≤ w.devices.length then
    ({ w with
        error := "You can only add one device per account",
        success := "" }, false)
  else
    match addFailure with
    | some msg =>
      ({ w with
          error := if msg = "" then "Failed to save device" else msg,
          success := "" }, true)
    | none =>
      let server := w.server ++ [d]
      ({ server := server, devices := server, error := "",
         success := "Device added successfully with default thresholds" }, true)

/-- `canAddDevice` (DeviceManagement.tsx line 197). -/
def canAddDevice (devices : List Device) : Bool := devices.length < 1

end DM

/-- one awaited backend request of the client, with the timeout raced
against it, if any (`none` = plainly awaited, no race).  Sites and values
from supabaseApi.ts (testConnection 5000 ms at line 19; getCurrentUser
profile query 3000 ms at line 115, session fetch 5000 ms at line 174,
session-path profile query 3000 ms at line 203) and the AuthProvider
session check (part_002 line 63, 10000 ms); all other awaited backend
requests in the client have no race. -/
structure BackendCall where
  site : String
  timeoutMs : Option Nat
deriving Repr, DecidableEq

/-- the awaited backend requests of the client, with their raced timeouts. -/
def clientBackendCalls : List BackendCall :=
  [⟨"SupabaseAPI.testConnection.getSession", some 5000⟩,
   ⟨"SupabaseAPI.getCurrentUser.profileQuery", some 3000⟩,
   ⟨"SupabaseAPI.getCurrentUser.getSession", some 5000⟩,
   ⟨"SupabaseAPI.getCurrentUser.sessionProfileQuery", some 3000⟩,
   ⟨"AuthProvider.initializeAuth.getSession", some 10000⟩,
   ⟨"SupabaseAPI.signUp.auth", none⟩,
   ⟨"SupabaseAPI.signIn.auth", none⟩,
   ⟨"SupabaseAPI.signOut.auth", none⟩,
   ⟨"SupabaseAPI.getUserDevices.devicesQuery", none⟩,
   ⟨"SupabaseAPI.addDevice.insert", none⟩,
   ⟨"SupabaseAPI.updateDevice.update", none⟩,
   ⟨"SupabaseAPI.deleteDevice.delete", none⟩,
   ⟨"SupabaseAPI.getLatestSensorData.sensorQuery", none⟩,
   ⟨"SupabaseAPI.getSensorDataHistory.sensorQuery", none⟩,
   ⟨"SupabaseAPI.getThresholds.query", none⟩,
   ⟨"SupabaseAPI.updateThreshold.upsert", none⟩,
   ⟨"SupabaseAPI.getAlerts.query", none⟩,
   ⟨"SupabaseAPI.updateProfile.upsert", none⟩,
   ⟨"WatsonXAPI.generateToken.iamFetch", none⟩,
   ⟨"WatsonXAPI.getRecommendations.chatFetch", none⟩]

/-- whether a call is raced against a timeout in the 3-10 second band. -/
def racedWithin3to10 (c : BackendCall) : Bool :=
  match c.timeoutMs with
  | some t => 3000 ≤ t && t ≤ 10000
  | none => false

/-- a sample raw sensor row, used to instantiate universally quantified
results. -/
def sampleRow : Supa.SensorRow :=
  { timestamp := "2025-01-01T00:00:00Z", atmo_temp := none,
    humidity := some 55, light := some 500, ec := none, soil_temp := some 22,
    moisture := some 35, nitrogen := some 25, phosphorus := none,
    potassium := some 18, ph := some (11/2) }

/-- a sample transformed sensor snapshot. -/
def sampleSensor : SensorData := Supa.transformSensorData sampleRow

theorem jsNumOr0_some (q : ℚ) : jsNumOr0 (some q) = q := by
  by_cases h : q = 0 <;> simp [jsNumOr0, h]

theorem jsNumOr0_none : jsNumOr0 none = 0 := rfl

/-- C2: `SupabaseAPI.getLatestSensorData` never throws: it returns null when
Supabase is not configured, when the query rejects (covering timeouts and
network failures), when it resolves with an error, and when no rows come
back; otherwise it returns the transformed latest record.  The embedding is
a total function over every query outcome, so no exception escapes. -/
theorem getLatestSensorData_never_throws :
    (∀ q, Supa.getLatestSensorData false q = none)
    ∧ Supa.getLatestSensorData true .thrown = none
    ∧ (∀ data, Supa.getLatestSensorData true (.res true data) = none)
    ∧ Supa.getLatestSensorData true (.res false none) = none
    ∧ Supa.getLatestSensorData true (.res false (some [])) = none
    ∧ ∀ r rs, Supa.getLatestSensorData true (.res false (some (r :: rs)))
        = some (Supa.transformSensorData r) :=
  ⟨fun _ => rfl, rfl, fun _ => rfl, rfl, rfl, fun _ _ => rfl⟩

/-- C8: every `SensorData` value produced by `getLatestSensorData` and
`getSensorDataHistory` is an output of `transformSensorData`, which copies
the timestamp through and maps each backend reading to 0 when it is missing
or null and to its numeric value otherwise. -/
theorem transformSensorData_defaults (row : Supa.SensorRow) :
    (Supa.transformSensorData row).timestamp = row.timestamp
    ∧ ((row.atmo_temp = none → (Supa.transformSensorData row).atmoTemp = 0)
       ∧ ∀ v, row.atmo_temp = some v → (Supa.transformSensorData row).atmoTemp = v)
    ∧ ((row.humidity = none → (Supa.transformSensorData row).humidity = 0)
       ∧ ∀ v, row.humidity = some v → (Supa.transformSensorData row).humidity = v)
    ∧ ((row.light = none → (Supa.transformSensorData row).light = 0)
       ∧ ∀ v, row.light = some v → (Supa.transformSensorData row).light = v)
    ∧ ((row.ec = none → (Supa.transformSensorData row).ec = 0)
       ∧ ∀ v, row.ec = some v → (Supa.transformSensorData row).ec = v)
    ∧ ((row.soil_temp = none → (Supa.transformSensorData row).soilTemp = 0)
       ∧ ∀ v, row.soil_temp = some v → (Supa.transformSensorData row).soilTemp = v)
    ∧ ((row.moisture = none → (Supa.transformSensorData row).moisture = 0)
       ∧ ∀ v, row.moisture = some v → (Supa.transformSensorData row).moisture = v)
    ∧ ((row.nitrogen = none → (Supa.transformSensorData row).n = 0)
       ∧ ∀ v, row.nitrogen = some v → (Supa.transformSensorData row).n = v)
    ∧ ((row.phosphorus = none → (Supa.transformSensorData row).p = 0)
       ∧ ∀ v, row.phosphorus = some v → (Supa.transformSensorData row).p = v)
    ∧ ((row.potassium = none → (Supa.transformSensorData row).k = 0)
       ∧ ∀ v, row.potassium = some v → (Supa.transformSensorData row).k = v)
    ∧ ((row.ph = none → (Supa.transformSensorData row).ph = 0)
       ∧ ∀ v, row.ph = some v → (Supa.transformSensorData row).ph = v)
    ∧ (∀ c q x, x ∈ Supa.getSensorDataHistory c q →
        ∃ r, x = Supa.transformSensorData r)
    ∧ (∀ c q x, Supa.getLatestSensorData c q = some x →
        ∃ r, x = Supa.transformSensorData r) := by
  have hnone : ∀ (o : Option ℚ), o = none → jsNumOr0 o = 0 :=
    fun o h => h ▸ rfl
  have hsome : ∀ (o : Option ℚ) (v : ℚ), o = some v → jsNumOr0 o = v :=
    fun o v h => h ▸ jsNumOr0_some v
  refine ⟨rfl, ⟨hnone _, hsome _⟩, ⟨hnone _, hsome _⟩, ⟨hnone _, hsome _⟩,
    ⟨hnone _, hsome _⟩, ⟨hnone _, hsome _⟩, ⟨hnone _, hsome _⟩,
    ⟨hnone _, hsome _⟩, ⟨hnone _, hsome _⟩, ⟨hnone _, hsome _⟩,
    ⟨hnone _, hsome _⟩, ?_, ?_⟩
  · intro c q x hx
    cases c with
    | false => simp [Supa.getSensorDataHistory] at hx
    | true =>
      cases q with
      | thrown => simp [Supa.getSensorDataHistory] at hx
      | res e data =>
        cases e with
        | true => simp [Supa.getSensorDataHistory] at hx
        | false =>
          simp only [Supa.getSensorDataHistory, Bool.not_true,
            Bool.false_eq_true, if_false, if_neg, List.mem_map] at hx
          obtain ⟨r, _, hr⟩ := hx
          exact ⟨r, hr.symm⟩
  · intro c q x hx
    cases c with
    | false => simp [Supa.getLatestSensorData] at hx
    | true =>
      cases q with
      | thrown => simp [Supa.getLatestSensorData] at hx
      | res e data =>
        cases e with
        | true => simp [Supa.getLatestSensorData] at hx
        | false =>
          cases data with
          | none => simp [Supa.getLatestSensorData] at hx
          | some rows =>
            cases rows with
            | nil => simp [Supa.getLatestSensorData] at hx
            | cons r rs =>
              refine ⟨r, ?_⟩
              have : some (Supa.transformSensorData r) = some x := hx
              exact (Option.some_inj.mp this).symm

/-- C8 witness: the theorem applied to the sample row. -/
theorem transformSensorData_defaults_witness :
    (Supa.transformSensorData sampleRow).atmoTemp = 0
    ∧ (Supa.transformSensorData sampleRow).humidity = 55
    ∧ (Supa.transformSensorData sampleRow).ph = 11/2 :=
  ⟨(transformSensorData_defaults sampleRow).2.1.1 rfl,
   (transformSensorData_defaults sampleRow).2.2.1.2 55 rfl,
   (transformSensorData_defaults sampleRow).2.2.2.2.2.2.2.2.2.2.1.2 (11/2) rfl⟩

/-- a sample environment for `getCurrentUser`: configured, with a profile
row available on the provided-identity path. -/
def envW : Supa.CurrentUserEnv :=
  { configured := true,
    profileQuery := .res false
      (some [{ full_name := some "Alice", phone := some "123",
               farm_name := none, location := some "Farmville" }]),
    connectionOk := true,
    session := .noUser,
    sessionProfileQuery := .thrown }

/-- C1: a `getCurrentUser` call with a signed-in identity (truthy userId and
userEmail, or an execution whose session check finds a user) returns the
merged user record: id and email from the auth identity, name from the
fetched profile row falling back to the metadata full name and then to
"User", and phone, farm name and location from the profile row falling back
to the empty string when no profile row is available (no row returned, or
the profile query rejected). -/
theorem getCurrentUser_signedIn_merged (userId userEmail meta : Option String)
    (env : Supa.CurrentUserEnv) (hconf : env.configured = true) :
    (jsTruthyStr userId = true → jsTruthyStr userEmail = true →
      Supa.getCurrentUser userId userEmail meta env
        = some (Supa.mergeUserSpec (userId.getD "") (userEmail.getD "")
            (Supa.extractProfile env.profileQuery) meta))
    ∧ (∀ u, (jsTruthyStr userId && jsTruthyStr userEmail) = false →
        env.connectionOk = true → env.session = .found u →
        Supa.getCurrentUser userId userEmail meta env
          = some (Supa.mergeUserSpec u.id u.email
              (Supa.extractProfile env.sessionProfileQuery) u.metaFullName)) := by
  constructor
  · intro h1 h2
    cases hq : env.profileQuery with
    | thrown =>
      simp [Supa.getCurrentUser, Supa.mergeUserSpec, Supa.extractProfile,
        jsOrStr, hconf, h1, h2, hq]
    | res e data =>
      cases data with
      | none =>
        simp [Supa.getCurrentUser, Supa.mergeUserSpec, Supa.extractProfile,
          jsOrStr, hconf, h1, h2, hq]
      | some rows =>
        cases rows with
        | nil =>
          simp [Supa.getCurrentUser, Supa.mergeUserSpec, Supa.extractProfile,
            jsOrStr, hconf, h1, h2, hq]
        | cons r rs =>
          simp [Supa.getCurrentUser, Supa.mergeUserSpec, Supa.extractProfile,
            jsOrStr, hconf, h1, h2, hq]
  · intro u hcond hconn hsess
    cases hq : env.sessionProfileQuery with
    | thrown =>
      simp [Supa.getCurrentUser, Supa.mergeUserSpec, Supa.extractProfile,
        jsOrStr, hconf, hcond, hconn, hsess, hq]
    | res e data =>
      cases data with
      | none =>
        simp [Supa.getCurrentUser, Supa.mergeUserSpec, Supa.extractProfile,
          jsOrStr, hconf, hcond, hconn, hsess, hq]
      | some rows =>
        cases rows with
        | nil =>
          simp [Supa.getCurrentUser, Supa.mergeUserSpec, Supa.extractProfile,
            jsOrStr, hconf, hcond, hconn, hsess, hq]
        | cons r rs =>
          simp [Supa.getCurrentUser, Supa.mergeUserSpec, Supa.extractProfile,
            jsOrStr, hconf, hcond, hconn, hsess, hq]

/-- C1 witness: the theorem applied to a configured environment with a
provided identity and a present profile row. -/
theorem getCurrentUser_signedIn_merged_witness :
    Supa.getCurrentUser (some "u1") (some "a@b.c") (some "Meta Name") envW
      = some { id := "u1", email := "a@b.c", name := "Alice", phone := "123",
               farmName := "", location := "Farmville" } := by
  have h := (getCurrentUser_signedIn_merged (some "u1") (some "a@b.c")
    (some "Meta Name") envW rfl).1 (by decide) (by decide)
  exact h.trans (by decide)

/-- a sample cached IAM token expiring at time 1000. -/
def tokenW : WX.WatsonXToken :=
  { access_token := "tokA", refresh_token := "r", token_type := "Bearer",
    expires_in := 3600, expiration := 1000, scope := "ibm" }

/-- C5: `WatsonXAPI.generateToken` returns the cached access token without
an exchange iff a cached token exists and the clock is strictly earlier
than its expiration minus the 300-second buffer; otherwise it performs the
exchange and, on success, caches the new token and returns its access
token. -/
theorem generateToken_expiry_aware (apiKey : String)
    (cached : Option WX.WatsonXToken) (now : Int)
    (exchange : Except String WX.WatsonXToken) (hk : apiKey ≠ "") :
    ((WX.generateToken apiKey cached now exchange).2.2 = false
      ↔ ∃ t, cached = some t ∧ now < t.expiration - 300)
    ∧ (∀ t, cached = some t → now < t.expiration - 300 →
        WX.generateToken apiKey cached now exchange
          = (.ok t.access_token, some t, false))
    ∧ ((∀ t, cached = some t → ¬ now < t.expiration - 300) →
        (WX.generateToken apiKey cached now exchange).2.2 = true
        ∧ ∀ t, exchange = .ok t →
            WX.generateToken apiKey cached now exchange
              = (.ok t.access_token, some t, true)) := by
  rcases cached with _ | t
  · refine ⟨?_, ?_, ?_⟩
    · cases exchange with
      | ok t => simp [WX.generateToken, WX.exchangeStep, hk]
      | error e => simp [WX.generateToken, WX.exchangeStep, hk]
    · intro t ht; exact absurd ht (by simp)
    · intro _
      constructor
      · cases exchange with
        | ok t => simp [WX.generateToken, WX.exchangeStep, hk]
        | error e => simp [WX.generateToken, WX.exchangeStep, hk]
      · intro t ht
        subst ht
        simp [WX.generateToken, WX.exchangeStep, hk]
  · by_cases h : now < t.expiration - 300
    · refine ⟨?_, ?_, ?_⟩
      · simp [WX.generateToken, WX.isTokenValid, WX.tokenExpiryBuffer, hk, h]
      · intro t' ht' hv
        have : t' = t := by simpa [eq_comm] using ht'
        subst this
        simp [WX.generateToken, WX.isTokenValid, WX.tokenExpiryBuffer, hk, h]
      · intro hall
        exact absurd h (hall t rfl)
    · refine ⟨?_, ?_, ?_⟩
      · cases exchange with
        | ok t' =>
          simp [WX.generateToken, WX.isTokenValid, WX.tokenExpiryBuffer,
            WX.exchangeStep, hk, h]
        | error e =>
          simp [WX.generateToken, WX.isTokenValid, WX.tokenExpiryBuffer,
            WX.exchangeStep, hk, h]
      · intro t' ht' hv
        have : t' = t := by simpa [eq_comm] using ht'
        subst this
        exact absurd hv h
      · intro _
        constructor
        · cases exchange with
          | ok t' =>
            simp [WX.generateToken, WX.isTokenValid, WX.tokenExpiryBuffer,
              WX.exchangeStep, hk, h]
          | error e =>
            simp [WX.generateToken, WX.isTokenValid, WX.tokenExpiryBuffer,
              WX.exchangeStep, hk, h]
        · intro t' ht'
          subst ht'
          simp [WX.generateToken, WX.isTokenValid, WX.tokenExpiryBuffer,
            WX.exchangeStep, hk, h]

/-- C5 witness: with a cached token expiring at 1000 and the clock at 600
(600 < 1000 - 300), the cached access token is returned and no exchange is
performed. -/
theorem generateToken_expiry_aware_witness :
    WX.generateToken "key" (some tokenW) 600 (.error "unused")
      = (.ok "tokA", some tokenW, false) := by
  have h := (generateToken_expiry_aware "key" (some tokenW) 600
    (.error "unused") (by decide)).2.1 tokenW rfl (by decide)
  exact h.trans rfl

/-- C9: `getFallbackRecommendations` is a pure function of the sensor data
producing at most three recommendations, and each item appears iff its
sensor condition holds: irrigation iff moisture < 40, pH adjustment iff
ph < 6.0 or ph > 7.5, nitrogen fertilizer iff n < 30. -/
theorem fallback_recommendations_iff (sd : SensorData) :
    (WX.getFallbackRecommendations sd).length ≤ 3
    ∧ ("Increase Irrigation"
        ∈ (WX.getFallbackRecommendations sd).map WX.Recommendation.title
        ↔ sd.moisture < 40)
    ∧ ("Soil pH Adjustment"
        ∈ (WX.getFallbackRecommendations sd).map WX.Recommendation.title
        ↔ (sd.ph < 6 ∨ sd.ph > 7.5))
    ∧ ("Nitrogen Fertilizer Application"
        ∈ (WX.getFallbackRecommendations sd).map WX.Recommendation.title
        ↔ sd.n < 30) := by
  by_cases h1 : sd.moisture < 40 <;>
    by_cases h2 : sd.ph < 6 ∨ sd.ph > 7.5 <;>
      by_cases h3 : sd.n < 30 <;>
        simp [WX.getFallbackRecommendations, h1, h2, h3]

/-- C9 witness: at the sample snapshot (moisture 35, ph 5.5, n 25) all
three fallback recommendations fire. -/
theorem fallback_recommendations_iff_witness :
    (WX.getFallbackRecommendations sampleSensor).length ≤ 3
    ∧ "Increase Irrigation"
        ∈ (WX.getFallbackRecommendations sampleSensor).map WX.Recommendation.title
    ∧ "Nitrogen Fertilizer Application"
        ∈ (WX.getFallbackRecommendations sampleSensor).map WX.Recommendation.title :=
  ⟨(fallback_recommendations_iff sampleSensor).1,
   (fallback_recommendations_iff sampleSensor).2.1.mpr (by decide),
   (fallback_recommendations_iff sampleSensor).2.2.2.mpr (by decide)⟩

/-- a sample draw record for the mock weather generator. -/
def rngW1 : Weather.WeatherRng :=
  { indexDraw := ⟨2, by decide⟩, tempDraw := 1/2, humDraw := 1/4,
    presDraw := 0, windDraw := 1/3, dirDraw := 1/8, visDraw := 1/5,
    uvDraw := 1/10, feelDraw := 3/4 }

/-- a second sample draw record. -/
def rngW2 : Weather.WeatherRng :=
  { indexDraw := ⟨7, by decide⟩, tempDraw := 0, humDraw := 1, presDraw := 1/2,
    windDraw := 0, dirDraw := 1, visDraw := 0, uvDraw := 1, feelDraw := 0 }

/-- C7: `WeatherAPI.getCurrentWeather` never throws and always resolves to a
complete mock `WeatherData` record: the normal path returns generated mock
data and the catch path answers with mock data as well. -/
theorem getCurrentWeather_always_mock (tryRng catchRng : Weather.WeatherRng)
    (failed : Bool) :
    ∃ r, Weather.getCurrentWeather tryRng catchRng failed
        = Weather.generateMockWeatherData r
      ∧ (failed = false → r = tryRng) ∧ (failed = true → r = catchRng) := by
  cases failed with
  | false => exact ⟨tryRng, rfl, fun _ => rfl, fun h => absurd h (by decide)⟩
  | true => exact ⟨catchRng, rfl, fun h => absurd h (by decide), fun _ => rfl⟩

/-- C7 witness: the theorem applied on the error path with concrete draws. -/
theorem getCurrentWeather_always_mock_witness :
    Weather.getCurrentWeather rngW1 rngW2 true
      = Weather.generateMockWeatherData rngW2 := by
  obtain ⟨r, h1, _, h3⟩ := getCurrentWeather_always_mock rngW1 rngW2 true
  rw [h3 rfl] at h1
  exact h1

/-- C10: the mock `EcoBoltAPI` authentication gate: login succeeds, setting
the flag and the current user, iff both credentials are non-empty; while
unauthenticated every data operation rejects with "Not authenticated" and
leaves the state unchanged; logout clears the flag and the current user. -/
theorem ecoBolt_auth_gate :
    (∀ st e p, e ≠ "" → p ≠ "" →
       MockApi.login st e p
         = ({ isAuthenticated := true,
              currentUser := some { id := "1", name := "John Farmer",
                                    email := e, phone := "+1-555-0123" } },
            { success := true,
              user := some { id := "1", name := "John Farmer", email := e,
                             phone := "+1-555-0123" },
              token := some "mock-jwt-token" }))
    ∧ (∀ st e p, e = "" ∨ p = "" →
        MockApi.login st e p
          = (st, { success := false, user := none, token := none }))
    ∧ (∀ st, st.isAuthenticated = false →
        (∀ m, MockApi.getLatestSensorData st m = (.error "Not authenticated", st))
        ∧ (∀ h, MockApi.getSensorDataHistory st h = (.error "Not authenticated", st))
        ∧ (∀ d s, MockApi.controlAppliance st d s = (.error "Not authenticated", st))
        ∧ (∀ a, MockApi.sendAlert st a = (.error "Not authenticated", st))
        ∧ (∀ s, MockApi.updateSettings st s = (.error "Not authenticated", st))
        ∧ (∀ sd, MockApi.getAIRecommendations st sd = (.error "Not authenticated", st)))
    ∧ (∀ st, MockApi.logout st = { isAuthenticated := false, currentUser := none }) := by
  refine ⟨?_, ?_, ?_, fun _ => rfl⟩
  · intro st e p he hp
    simp [MockApi.login, he, hp]
  · rintro st e p (h | h) <;> simp [MockApi.login, h]
  · intro st hst
    exact ⟨fun m => by simp [MockApi.getLatestSensorData, hst],
      fun h => by simp [MockApi.getSensorDataHistory, hst],
      fun d s => by simp [MockApi.controlAppliance, hst],
      fun a => by simp [MockApi.sendAlert, hst],
      fun s => by simp [MockApi.updateSettings, hst],
      fun sd => by simp [MockApi.getAIRecommendations, hst]⟩

/-- C10 witness: the theorem applied at concrete credentials and at the
initial unauthenticated state. -/
theorem ecoBolt_auth_gate_witness :
    MockApi.login { isAuthenticated := false, currentUser := none } "a@b.c" "pw"
      = ({ isAuthenticated := true,
           currentUser := some { id := "1", name := "John Farmer",
                                 email := "a@b.c", phone := "+1-555-0123" } },
         { success := true,
           user := some { id := "1", name := "John Farmer", email := "a@b.c",
                          phone := "+1-555-0123" },
           token := some "mock-jwt-token" })
    ∧ MockApi.getLatestSensorData { isAuthenticated := false, currentUser := none }
        sampleSensor
      = (.error "Not authenticated", { isAuthenticated := false, currentUser := none }) :=
  ⟨ecoBolt_auth_gate.1 _ "a@b.c" "pw" (by decide) (by decide),
   (ecoBolt_auth_gate.2.2.1 _ rfl).1 sampleSensor⟩

/-- a device-management world already holding one device. -/
def dmFullW : DM.DMWorld :=
  { server := [{ device_id := "ESP32_001", device_name := "Greenhouse Sensor",
                 location := none }],
    devices := [{ device_id := "ESP32_001", device_name := "Greenhouse Sensor",
                  location := none }],
    error := "", success := "" }

/-- a fresh device used in witnesses. -/
def dmNewDevice : DM.Device :=
  { device_id := "ESP32_002", device_name := "Field Sensor",
    location := some "Field 1" }

/-- C4: the one-device-per-account policy of the device-management add flow:
with a non-empty client list the request is rejected with the error message
and `addDevice` is not called; `addDevice` is only ever called on an empty
list; starting from a client list synchronised with the backend and holding
at most one device, the list still holds at most one device afterwards; and
`canAddDevice` holds exactly on the empty list. -/
theorem device_limit_enforced :
    (∀ w d f, 1 ≤ w.devices.length →
       DM.handleSubmitAdd w d f
         = ({ w with
                error := "You can only add one device per account",
                success := "" }, false))
    ∧ (∀ w d f, (DM.handleSubmitAdd w d f).2 = true → w.devices = [])
    ∧ (∀ w d f, w.devices = w.server → w.devices.length ≤ 1 →
        (DM.handleSubmitAdd w d f).1.devices.length ≤ 1)
    ∧ (∀ ds, DM.canAddDevice ds = true ↔ ds = []) := by
  refine ⟨?_, ?_, ?_, ?_⟩
  · intro w d f h
    simp [DM.handleSubmitAdd, h]
  · intro w d f h
    by_cases hl : 1 ≤ w.devices.length
    · simp [DM.handleSubmitAdd, hl] at h
    · have : w.devices.length = 0 := by omega
      exact List.length_eq_zero.mp this
  · intro w d f hsync hle
    by_cases hl : 1 ≤ w.devices.length
    · simp [DM.handleSubmitAdd, hl]
      omega
    · have h0 : w.devices.length = 0 := by omega
      have hdev : w.devices = [] := List.length_eq_zero.mp h0
      have hserv : w.server = [] := by rw [← hsync]; exact hdev
      cases f with
      | some msg => simp [DM.handleSubmitAdd, hl, hdev]
      | none => simp [DM.handleSubmitAdd, hl, hserv]
  · intro ds
    cases ds <;> simp [DM.canAddDevice]

/-- C4 witness: with one device already present the add request is rejected,
the error message is set and `addDevice` is not called. -/
theorem device_limit_enforced_witness :
    DM.handleSubmitAdd dmFullW dmNewDevice none
      = ({ dmFullW with
             error := "You can only add one device per account",
             success := "" }, false)
    ∧ (DM.handleSubmitAdd dmFullW dmNewDevice none).2 = false :=
  ⟨device_limit_enforced.1 dmFullW dmNewDevice none (by decide),
   by rw [device_limit_enforced.1 dmFullW dmNewDevice none (by decide)]⟩

/-- a parsed recommendation object passing the validation filter. -/
def goodObj : WX.RecObj :=
  { type := some (.jstr "practice"), title := some (.jstr "Mulch the beds"),
    description := some (.jstr "Add a mulch layer"),
    confidence := some (.jnum 80), priority := some (.jstr "medium"),
    actionable := some (.jbool true),
    reasoning := some (.jstr "Mulch keeps moisture in the soil") }

theorem jvTruthy_isSome (o : Option WX.JVal) (h : WX.jvTruthy o = true) :
    o.isSome = true := by
  cases o with
  | none => simp [WX.jvTruthy] at h
  | some v => rfl

/-- C6: `WatsonXAPI.getRecommendations` never throws (the embedding is total
over every failure outcome): it returns the empty list when the API key or
project id is missing; on the success path it parses the bracket block
extracted from the response text and keeps exactly the objects passing the
validation filter, each of which has all seven required fields (truthy
type, title, description, priority and reasoning, a numeric confidence and
a boolean actionable flag); and on any token, network, HTTP, missing-content
or parse error it returns the fallback recommendations computed from the
same sensor data. -/
theorem getRecommendations_total (apiKey projectId : String)
    (tok : Except String String) (chat : WX.ChatOutcome)
    (jp : String → Option (List WX.RecObj)) (sd : SensorData) :
    ((apiKey = "" ∨ projectId = "") →
       WX.getRecommendations apiKey projectId tok chat jp sd = [])
    ∧ (apiKey ≠ "" → projectId ≠ "" →
        ((∀ e, tok = .error e →
            WX.getRecommendations apiKey projectId tok chat jp sd
              = (WX.getFallbackRecommendations sd).map WX.recToObj)
         ∧ (chat = .netError →
            WX.getRecommendations apiKey projectId tok chat jp sd
              = (WX.getFallbackRecommendations sd).map WX.recToObj)
         ∧ (chat = .noContent →
            WX.getRecommendations apiKey projectId tok chat jp sd
              = (WX.getFallbackRecommendations sd).map WX.recToObj)
         ∧ (∀ a s, tok = .ok a → chat = .content s →
              jp (WX.extractJsonBlock s) = none →
              WX.getRecommendations apiKey projectId tok chat jp sd
                = (WX.getFallbackRecommendations sd).map WX.recToObj)
         ∧ (∀ a s objs, tok = .ok a → chat = .content s →
              jp (WX.extractJsonBlock s) = some objs →
              WX.getRecommendations apiKey projectId tok chat jp sd
                = objs.filter WX.isValidRec)))
    ∧ (∀ r, WX.isValidRec r = true → WX.hasAllSevenFields r = true) := by
  refine ⟨?_, ?_, ?_⟩
  · rintro (h | h) <;> simp [WX.getRecommendations, h]
  · intro hk hp
    refine ⟨?_, ?_, ?_, ?_, ?_⟩
    · intro e ht
      subst ht
      simp [WX.getRecommendations, hk, hp]
    · intro hc
      subst hc
      cases tok <;> simp [WX.getRecommendations, hk, hp]
    · intro hc
      subst hc
      cases tok <;> simp [WX.getRecommendations, hk, hp]
    · intro a s ht hc hjp
      subst ht
      subst hc
      simp [WX.getRecommendations, hk, hp, hjp]
    · intro a s objs ht hc hjp
      subst ht
      subst hc
      simp [WX.getRecommendations, hk, hp, hjp]
  · intro r h
    simp only [WX.isValidRec, Bool.and_eq_true] at h
    obtain ⟨⟨⟨⟨⟨⟨h1, h2⟩, h3⟩, h4⟩, h5⟩, h6⟩, h7⟩ := h
    simp only [WX.hasAllSevenFields, Bool.and_eq_true]
    exact ⟨⟨⟨⟨⟨⟨jvTruthy_isSome _ h1, jvTruthy_isSome _ h2⟩,
      jvTruthy_isSome _ h3⟩, h4⟩, jvTruthy_isSome _ h5⟩, h6⟩,
      jvTruthy_isSome _ h7⟩

/-- C6 witness: a configured call whose response text embeds a bracket
block; the block is extracted, parsed, and the one valid object is kept. -/
theorem getRecommendations_total_witness :
    WX.getRecommendations "k" "p" (.ok "t") (.content "note [1] end")
      (fun s => if s = "[1]" then some [goodObj] else none) sampleSensor
      = [goodObj] := by
  have h := ((getRecommendations_total "k" "p" (.ok "t")
      (.content "note [1] end")
      (fun s => if s = "[1]" then some [goodObj] else none)
      sampleSensor).2.1 (by decide) (by decide)).2.2.2.2 "t" "note [1] end"
      [goodObj] rfl rfl (by decide)
  exact h.trans (by decide)

/-- C3 counterexample: it is not the case that every awaited backend call of
the client is raced against a 3-10 second timeout: the devices query of
`getUserDevices` (supabaseApi.ts lines 260-263) is plainly awaited, with no
race at all, as are the sensor-data queries and both WatsonX fetches. -/
theorem not_every_call_raced :
    ¬ ∀ c ∈ clientBackendCalls, racedWithin3to10 c = true := by
  intro h
  have hmem : (⟨"SupabaseAPI.getUserDevices.devicesQuery", none⟩ : BackendCall)
      ∈ clientBackendCalls := by decide
  have := h _ hmem
  simp [racedWithin3to10] at this

/-- an environment whose profile query loses its timeout race. -/
def envTimeoutW : Supa.CurrentUserEnv :=
  { configured := true, profileQuery := .thrown, connectionOk := false,
    session := .thrown, sessionProfileQuery := .thrown }

/-- C3 amended: the timeout races that do exist (the session and profile
fetches of getCurrentUser and testConnection, and the AuthProvider session
check) all use timeouts between 3 and 10 seconds, and a lost race yields a
fallback value (a basic user record, a null result) rather than a surfaced
error; the remaining awaited backend calls carry no timeout race. -/
theorem raced_calls_bounded_with_fallback :
    (clientBackendCalls.all (fun c =>
        match c.timeoutMs with
        | some t => decide (3000 ≤ t ∧ t ≤ 10000)
        | none => true)) = true
    ∧ (clientBackendCalls.any (fun c => c.timeoutMs.isSome)) = true
    ∧ (clientBackendCalls.any (fun c => c.timeoutMs.isNone)) = true
    ∧ Supa.getCurrentUser (some "uid") (some "em") (some "Nia") envTimeoutW
        = some { id := "uid", email := "em", name := "Nia", phone := "",
                 farmName := "", location := "" }
    ∧ Supa.getLatestSensorData true .thrown = none :=
  ⟨by decide, by decide, by decide, by decide, rfl⟩

end EcoBolt
